import Mathlib

/-!
Shallow embedding of the item-synchronization core of a React Native +
Supabase task application: the Item Store hook (`src/hooks/useItems.ts`)
and the sign-up/sign-in validation of `src/screens/AuthScreen.tsx`,
together with a model of the external Supabase collaborator (the PostgREST
`tasks` table and the auth session).

The external collaborator is modelled with standard supabase-js / PostgREST
semantics as invoked by the client code:
* `select` applies the equality filters and the requested ordering;
* `insert([...]).select().single()` returns the inserted row, with `id` and
  `created_at` assigned by the service;
* `update(...).eq(...).eq(...).select().single()` errors (PGRST116,
  "JSON object requested, multiple (or no) rows returned") when the filters
  match zero rows (or more than one); PostgREST wraps each request in a
  transaction, so a failed request mutates nothing;
* `delete().eq(...).eq(...)` without `.select()` reports no error when the
  filters match zero rows: the request succeeds and deletes nothing.

Remote/network failures are injected through an explicit `netFail` argument:
`some msg` means the single `tasks`-table call of the operation fails with
error message `msg`; `none` means it succeeds. The `World.calls` counter
counts the calls issued against the `tasks` collection.
-/

/-- The `Item` record of `useItems.ts` (a row of the `tasks` table). -/
structure Item where
  id : String
  title : String
  category : String
  priority : String
  user_id : Option String := none
  created_at : Option String := none
deriving Repr, DecidableEq

/-- State of the external Supabase service: the rows of the `tasks` table,
plus the data the service uses to mint `id` and `created_at` for inserts. -/
structure Remote where
  rows : List Item
  nextId : Nat
  now : String
deriving Repr, DecidableEq

/-- Lexicographic (codepoint) `≤` on character lists, the order the service
uses for an identifier column: strictly smaller head character, or equal
heads and `≤` tails; the empty list is least. -/
def charLeB : List Char → List Char → Bool
  | [], _ => true
  | _ :: _, [] => false
  | a :: as, b :: bs => a.toNat < b.toNat || (a.toNat == b.toNat && charLeB as bs)

/-- The ordering requested by `.order('id', { ascending: false })`:
`a` comes before `b` when `a.id ≥ b.id` lexicographically. -/
def idGe (a b : Item) : Prop := charLeB b.id.data a.id.data = true

instance : DecidableRel idGe :=
  fun a b => inferInstanceAs (Decidable (charLeB b.id.data a.id.data = true))

/-- Rows sorted descending by `id`, as returned by the service for
`.order('id', { ascending: false })`. -/
def orderByIdDesc (l : List Item) : List Item := List.insertionSort idGe l

/-- `from('tasks').select('*').eq('user_id', uid).order('id', {ascending: false})`:
the current user's rows, newest (largest id) first. -/
def selectByUser (r : Remote) (uid : String) : List Item :=
  orderByIdDesc (r.rows.filter (fun it => it.user_id == some uid))

/-- `from('tasks').select('*').eq('user_id', uid).eq('priority', 'High')
.order('id', {ascending: false})`. -/
def selectHighByUser (r : Remote) (uid : String) : List Item :=
  orderByIdDesc (r.rows.filter (fun it => it.user_id == some uid && it.priority == "High"))

/-- `from('tasks').insert([{title, category, priority, user_id}]).select().single()`:
the service stores a new row with a freshly assigned `id` and `created_at`
and returns it. -/
def remoteInsert (r : Remote) (title category priority uid : String) : Item × Remote :=
  let it : Item :=
    { id := toString r.nextId, title := title, category := category,
      priority := priority, user_id := some uid, created_at := some r.now }
  (it, { r with rows := r.rows ++ [it], nextId := r.nextId + 1 })

/-- The row filter `.eq('id', id).eq('user_id', uid)` used by update/delete. -/
def matchesIdUser (id uid : String) (it : Item) : Bool :=
  it.id == id && it.user_id == some uid

/-- The supabase-js error message of PGRST116, produced by `.single()` when
the request matched zero (or several) rows. -/
def noRowsMsg : String := "JSON object requested, multiple (or no) rows returned"

/-- `from('tasks').update({title, category, priority}).eq('id', id)
.eq('user_id', uid).select().single()`: when the filters match exactly one
row, that row's fields are overwritten and the updated row returned;
otherwise `.single()` makes the request fail (`none`, surfaced with
`noRowsMsg`) and the transaction is rolled back, leaving the table as it was. -/
def remoteUpdate (r : Remote) (id title category priority uid : String) :
    Option (Item × Remote) :=
  match r.rows.filter (matchesIdUser id uid) with
  | [it] =>
      let it2 : Item := { it with title := title, category := category, priority := priority }
      some (it2, { r with rows := r.rows.map (fun x => if matchesIdUser id uid x then it2 else x) })
  | _ => none

/-- `from('tasks').delete().eq('id', id).eq('user_id', uid)`: removes the
matching rows; matching zero rows is not an error. -/
def remoteDelete (r : Remote) (id uid : String) : Remote :=
  { r with rows := r.rows.filter (fun it => !(matchesIdUser id uid it)) }

/-- The hook's local state: `items`, `loading`, `error` of `useItems`. -/
structure ItemsState where
  items : List Item
  loading : Bool
  error : Option String
deriving Repr, DecidableEq

/-- The world an operation runs in: the auth session (`some uid` when
`supabase.auth.getSession()` yields a session whose user has id `uid`),
the remote service state, the hook's local state, and the number of calls
issued against the `tasks` collection so far. -/
structure World where
  session : Option String
  remote : Remote
  st : ItemsState
  calls : Nat
deriving Repr, DecidableEq

/-- `session?.user?.id` followed by the `if (!userId)` truthiness guard:
a missing session, and also an empty-string user id, fail the guard. -/
def activeUserId (session : Option String) : Option String :=
  match session with
  | none => none
  | some uid => if uid == "" then none else some uid

/-- JavaScript `a || b` on strings: the empty string is falsy. -/
def strOr (a b : String) : String := if a == "" then b else a

/-- The message of the `Error` thrown when the session guard fails. -/
def authErrMsg : String := "User not authenticated"

/-- Result value of `createItem`/`updateItem`/`deleteItem`:
`{ success: true, data? }` or `{ success: false, error }`. -/
inductive CrudResult where
  | success (data : Option Item)
  | failure (error : String)
deriving Repr, DecidableEq

/-- `result.success === false`. -/
def CrudResult.isFailure : CrudResult → Bool
  | .failure _ => true
  | .success _ => false

/-- The first statements of `fetchItems`/`fetchHighPriorityTasks`:
`setLoading(true); setError(null)`. -/
def fetchBegin (st : ItemsState) : ItemsState := { st with loading := true, error := none }

/-- The `catch`-then-`finally` tail of a failed fetch: record the error
message, reset `loading`. -/
def fetchFail (st : ItemsState) (m : String) : ItemsState :=
  { st with error := some m, loading := false }

/-- `fetchItems` of `useItems.ts`: guard the session, query the user's rows
ordered by id descending, replace `items` with the result; any thrown error
is caught and recorded via `err.message || 'Failed to fetch items'`; the
`finally` block resets `loading`. -/
def fetchItems (w : World) (netFail : Option String) : World :=
  let st0 := fetchBegin w.st
  match activeUserId w.session with
  | none =>
      { w with st := fetchFail st0 (strOr authErrMsg "Failed to fetch items") }
  | some uid =>
      match netFail with
      | some msg =>
          { w with calls := w.calls + 1,
                   st := fetchFail st0 (strOr msg "Failed to fetch items") }
      | none =>
          { w with calls := w.calls + 1,
                   st := { st0 with items := selectByUser w.remote uid, loading := false } }

/-- `fetchHighPriorityTasks` of `useItems.ts`: as `fetchItems`, with the
additional server-side filter `priority == 'High'`. -/
def fetchHighPriorityTasks (w : World) (netFail : Option String) : World :=
  let st0 := fetchBegin w.st
  match activeUserId w.session with
  | none =>
      { w with st := fetchFail st0 (strOr authErrMsg "Failed to fetch items") }
  | some uid =>
      match netFail with
      | some msg =>
          { w with calls := w.calls + 1,
                   st := fetchFail st0 (strOr msg "Failed to fetch items") }
      | none =>
          { w with calls := w.calls + 1,
                   st := { st0 with items := selectHighByUser w.remote uid, loading := false } }

/-- `createItem` of `useItems.ts`: guard the session, insert the new row
tagged with the current user's id, prepend the returned row to `items`. -/
def createItem (w : World) (netFail : Option String)
    (title category priority : String) : World × CrudResult :=
  let st0 : ItemsState := { w.st with error := none }
  match activeUserId w.session with
  | none =>
      let m := strOr authErrMsg "Failed to create item"
      ({ w with st := { st0 with error := some m } }, .failure m)
  | some uid =>
      match netFail with
      | some msg =>
          let m := strOr msg "Failed to create item"
          ({ w with calls := w.calls + 1, st := { st0 with error := some m } }, .failure m)
      | none =>
          let ir := remoteInsert w.remote title category priority uid
          ({ w with calls := w.calls + 1, remote := ir.2,
                    st := { st0 with items := ir.1 :: st0.items } },
           .success (some ir.1))

/-- `updateItem` of `useItems.ts`: guard the session, submit the full-field
update restricted to `.eq('id', id).eq('user_id', uid)`; on success replace
the entry with matching `id` in `items` in place. -/
def updateItem (w : World) (netFail : Option String)
    (id title category priority : String) : World × CrudResult :=
  let st0 : ItemsState := { w.st with error := none }
  match activeUserId w.session with
  | none =>
      let m := strOr authErrMsg "Failed to update item"
      ({ w with st := { st0 with error := some m } }, .failure m)
  | some uid =>
      match netFail with
      | some msg =>
          let m := strOr msg "Failed to update item"
          ({ w with calls := w.calls + 1, st := { st0 with error := some m } }, .failure m)
      | none =>
          match remoteUpdate w.remote id title category priority uid with
          | none =>
              let m := strOr noRowsMsg "Failed to update item"
              ({ w with calls := w.calls + 1, st := { st0 with error := some m } }, .failure m)
          | some dr =>
              ({ w with calls := w.calls + 1, remote := dr.2,
                        st := { st0 with
                                items := st0.items.map (fun x => if x.id == id then dr.1 else x) } },
               .success (some dr.1))

/-- `deleteItem` of `useItems.ts`: guard the session, issue the delete
restricted to `.eq('id', id).eq('user_id', uid)` (no `.single()`, so a
zero-row match is not an error), then drop the id from `items`. -/
def deleteItem (w : World) (netFail : Option String) (id : String) : World × CrudResult :=
  let st0 : ItemsState := { w.st with error := none }
  match activeUserId w.session with
  | none =>
      let m := strOr authErrMsg "Failed to delete item"
      ({ w with st := { st0 with error := some m } }, .failure m)
  | some uid =>
      match netFail with
      | some msg =>
          let m := strOr msg "Failed to delete item"
          ({ w with calls := w.calls + 1, st := { st0 with error := some m } }, .failure m)
      | none =>
          ({ w with calls := w.calls + 1, remote := remoteDelete w.remote id uid,
                    st := { st0 with items := st0.items.filter (fun it => it.id != id) } },
           .success none)

/-- `clearItems` of `useItems.ts`: purely local reset of `items` and `error`. -/
def clearItems (w : World) : World :=
  { w with st := { w.st with items := [], error := none } }

/-- Observable outcome of `handleAuth` in `AuthScreen.tsx`: either an early
return with a validation alert, or a call to the remote auth service
(`signUp` when `isSignUp`, else `signInWithPassword`) with the submitted
credentials. -/
inductive AuthStep where
  | validationError (msg : String)
  | remoteAuth (isSignUp : Bool) (email password : String)
deriving Repr, DecidableEq

/-- JavaScript `String.prototype.trim()`: drop leading and trailing
whitespace, modelled over the character list. -/
def jsTrim (s : String) : String :=
  ⟨((s.data.dropWhile Char.isWhitespace).reverse.dropWhile Char.isWhitespace).reverse⟩

/-- `handleAuth` of `AuthScreen.tsx` up to the remote call: the truthiness
checks `!email.trim() || !password.trim()`, then `password.length < 6` on the
raw password; the credentials submitted are `email.trim()` / `password.trim()`. -/
def handleAuth (isSignUp : Bool) (email password : String) : AuthStep :=
  if jsTrim email == "" || jsTrim password == "" then
    .validationError "Please fill in both email and password"
  else if password.length < 6 then
    .validationError "Password must be at least 6 characters"
  else
    .remoteAuth isSignUp (jsTrim email) (jsTrim password)

/-- A sample item owned by user `u1`. -/
def itemA : Item :=
  { id := "a1", title := "Buy milk", category := "Shopping", priority := "High",
    user_id := some "u1", created_at := some "t0" }

/-- A sample item owned by user `u2`. -/
def itemB : Item :=
  { id := "b2", title := "Pay rent", category := "Bills", priority := "Medium",
    user_id := some "u2", created_at := some "t0" }

/-- A second sample item owned by user `u1`, low priority. -/
def itemC : Item :=
  { id := "c3", title := "Walk dog", category := "Chores", priority := "Low",
    user_id := some "u1", created_at := some "t0" }

/-- Sample remote `tasks` table. -/
def remote0 : Remote := { rows := [itemA, itemB, itemC], nextId := 7, now := "t1" }

/-- Sample world with an authenticated session for user `u1`. -/
def w0 : World :=
  { session := some "u1", remote := remote0,
    st := { items := [itemC, itemA], loading := false, error := none }, calls := 0 }

/-- Sample world with no session. -/
def wNoAuth : World :=
  { session := none, remote := remote0,
    st := { items := [itemC, itemA], loading := false, error := none }, calls := 0 }


/-- `charLeB` is total. -/
theorem charLeB_total (x y : List Char) : charLeB x y = true ∨ charLeB y x = true := by
  induction x generalizing y with
  | nil => left; rfl
  | cons a as ih =>
    cases y with
    | nil => right; rfl
    | cons b bs =>
      simp only [charLeB, Bool.or_eq_true, Bool.and_eq_true, decide_eq_true_eq, beq_iff_eq]
      rcases Nat.lt_trichotomy a.toNat b.toNat with h | h | h
      · left; left; exact h
      · rcases ih bs with h2 | h2
        · left; right; exact ⟨h, h2⟩
        · right; right; exact ⟨h.symm, h2⟩
      · right; left; exact h

/-- `charLeB` is transitive. -/
theorem charLeB_trans (x : List Char) : ∀ y z, charLeB x y = true → charLeB y z = true →
    charLeB x z = true := by
  induction x with
  | nil => intro y z _ _; rfl
  | cons a as ih =>
    intro y z h1 h2
    cases y with
    | nil => exact absurd h1 (by simp [charLeB])
    | cons b bs =>
      cases z with
      | nil => exact absurd h2 (by simp [charLeB])
      | cons c cs =>
        simp only [charLeB, Bool.or_eq_true, Bool.and_eq_true, decide_eq_true_eq,
          beq_iff_eq] at h1 h2 ⊢
        rcases h1 with h1 | ⟨h1e, h1r⟩ <;> rcases h2 with h2 | ⟨h2e, h2r⟩
        · left; omega
        · left; omega
        · left; omega
        · right; exact ⟨by omega, ih bs cs h1r h2r⟩

instance : IsTotal Item idGe := ⟨fun a b => charLeB_total b.id.data a.id.data⟩

instance : IsTrans Item idGe :=
  ⟨fun a b c h1 h2 => charLeB_trans c.id.data b.id.data a.id.data h2 h1⟩

/-- `a || b` keeps a non-empty left operand. -/
theorem strOr_of_ne (a b : String) (h : a ≠ "") : strOr a b = a := by
  simp [strOr, h]

/-- C1 (counterexample): `deleteItem` on an id present in no row is not a
NotFound failure. In `w0` no row (remote or local) has id "zzz", yet the
delete reports success: the remote delete without `.select().single()`
raises no error when zero rows match, so the claimed `NotFound` result never
occurs. (The second half of the claim does hold: the list length is
unchanged.) -/
theorem c1_delete_missing_not_notfound :
    (deleteItem w0 none "zzz").2 = CrudResult.success none ∧
    (deleteItem w0 none "zzz").1.st.items.length = w0.st.items.length := by
  decide

/-- C1 (amended): for every `deleteItem` call with an authenticated session
and no remote failure, on an id that matches no remote row and no entry of
the in-memory list, the result is success (not NotFound: the zero-row remote
delete reports no error) and the in-memory list — hence its length — and the
remote table are unchanged. -/
theorem c1_delete_nonexistent_succeeds_unchanged (w : World) (uid id : String)
    (hs : activeUserId w.session = some uid)
    (hremote : ∀ it ∈ w.remote.rows, it.id ≠ id)
    (hlocal : ∀ it ∈ w.st.items, it.id ≠ id) :
    (deleteItem w none id).2 = CrudResult.success none ∧
    (deleteItem w none id).1.st.items = w.st.items ∧
    (deleteItem w none id).1.st.items.length = w.st.items.length ∧
    (deleteItem w none id).1.remote.rows = w.remote.rows := by
  have hloc : w.st.items.filter (fun it => it.id != id) = w.st.items :=
    List.filter_eq_self.mpr (fun a ha => by simp [bne_iff_ne]; exact hlocal a ha)
  have hrem : w.remote.rows.filter (fun it => !(matchesIdUser id uid it)) = w.remote.rows :=
    List.filter_eq_self.mpr (fun a ha => by simp [matchesIdUser, hremote a ha])
  refine ⟨?_, ?_, ?_, ?_⟩ <;> simp [deleteItem, hs, remoteDelete, hloc, hrem]

/-- C1 (witness for the amended theorem), at `w0` and id "zz". -/
theorem c1_witness :
    (activeUserId w0.session = some "u1" ∧ (∀ it ∈ w0.remote.rows, it.id ≠ "zz") ∧
      (∀ it ∈ w0.st.items, it.id ≠ "zz")) ∧
    (deleteItem w0 none "zz").2 = CrudResult.success none ∧
    (deleteItem w0 none "zz").1.st.items = w0.st.items ∧
    (deleteItem w0 none "zz").1.st.items.length = w0.st.items.length ∧
    (deleteItem w0 none "zz").1.remote.rows = w0.remote.rows :=
  ⟨⟨by decide, by decide, by decide⟩,
    c1_delete_nonexistent_succeeds_unchanged w0 "u1" "zz" (by decide) (by decide) (by decide)⟩

/-- C2: every Item Store operation invoked while no session is authenticated
fails immediately with the "User not authenticated" error, issues no call
against the `tasks` collection (the call counter is unchanged), and leaves
the in-memory item list unchanged. -/
theorem c2_unauthenticated_fails_without_remote_call (w : World) (f : Option String)
    (id t c p : String) (h : activeUserId w.session = none) :
    ((fetchItems w f).st.items = w.st.items ∧ (fetchItems w f).calls = w.calls ∧
      (fetchItems w f).st.error = some authErrMsg) ∧
    ((fetchHighPriorityTasks w f).st.items = w.st.items ∧
      (fetchHighPriorityTasks w f).calls = w.calls ∧
      (fetchHighPriorityTasks w f).st.error = some authErrMsg) ∧
    ((createItem w f t c p).1.st.items = w.st.items ∧
      (createItem w f t c p).1.calls = w.calls ∧
      (createItem w f t c p).2 = CrudResult.failure authErrMsg) ∧
    ((updateItem w f id t c p).1.st.items = w.st.items ∧
      (updateItem w f id t c p).1.calls = w.calls ∧
      (updateItem w f id t c p).2 = CrudResult.failure authErrMsg) ∧
    ((deleteItem w f id).1.st.items = w.st.items ∧
      (deleteItem w f id).1.calls = w.calls ∧
      (deleteItem w f id).2 = CrudResult.failure authErrMsg) := by
  have hne : authErrMsg ≠ "" := by decide
  refine ⟨⟨?_, ?_, ?_⟩, ⟨?_, ?_, ?_⟩, ⟨?_, ?_, ?_⟩, ⟨?_, ?_, ?_⟩, ⟨?_, ?_, ?_⟩⟩ <;>
    simp [fetchItems, fetchHighPriorityTasks, createItem, updateItem, deleteItem, h,
      fetchBegin, fetchFail, strOr_of_ne _ _ hne]

/-- C2 (witness): at the concrete unauthenticated world `wNoAuth`. -/
theorem c2_witness :
    activeUserId wNoAuth.session = none ∧
    (fetchItems wNoAuth none).st.items = wNoAuth.st.items ∧
    (deleteItem wNoAuth none "a1").2 = CrudResult.failure authErrMsg :=
  ⟨by decide,
    (c2_unauthenticated_fails_without_remote_call wNoAuth none "a1" "t" "c" "p" (by decide)).1.1,
    (c2_unauthenticated_fails_without_remote_call wNoAuth none "a1" "t" "c" "p" (by decide)).2.2.2.2.2.2⟩

/-- C3: a failing execution of any Item Store operation (missing session,
remote error, or zero-row `.single()` match) leaves the in-memory item list
exactly as it was: no failed call partially mutates local list state. -/
theorem c3_failure_leaves_list_unchanged (w : World) (f : Option String)
    (id t c p : String) :
    ((fetchItems w f).st.error.isSome = true → (fetchItems w f).st.items = w.st.items) ∧
    ((fetchHighPriorityTasks w f).st.error.isSome = true →
      (fetchHighPriorityTasks w f).st.items = w.st.items) ∧
    ((createItem w f t c p).2.isFailure = true →
      (createItem w f t c p).1.st.items = w.st.items) ∧
    ((updateItem w f id t c p).2.isFailure = true →
      (updateItem w f id t c p).1.st.items = w.st.items) ∧
    ((deleteItem w f id).2.isFailure = true →
      (deleteItem w f id).1.st.items = w.st.items) := by
  refine ⟨?_, ?_, ?_, ?_, ?_⟩
  · cases hs : activeUserId w.session <;> cases f <;>
      simp [fetchItems, hs, fetchBegin, fetchFail]
  · cases hs : activeUserId w.session <;> cases f <;>
      simp [fetchHighPriorityTasks, hs, fetchBegin, fetchFail]
  · cases hs : activeUserId w.session <;> cases f <;>
      simp [createItem, hs, CrudResult.isFailure]
  · cases hs : activeUserId w.session with
    | none => cases f <;> simp [updateItem, hs, CrudResult.isFailure]
    | some uid =>
      cases f with
      | some m => simp [updateItem, hs, CrudResult.isFailure]
      | none =>
        cases hu : remoteUpdate w.remote id t c p uid <;>
          simp [updateItem, hs, hu, CrudResult.isFailure]
  · cases hs : activeUserId w.session <;> cases f <;>
      simp [deleteItem, hs, CrudResult.isFailure]

/-- C3 (witness): at `wNoAuth` every operation fails and the list is kept. -/
theorem c3_witness :
    ((fetchItems wNoAuth none).st.error.isSome = true ∧
      (fetchItems wNoAuth none).st.items = wNoAuth.st.items) ∧
    ((fetchHighPriorityTasks wNoAuth none).st.error.isSome = true ∧
      (fetchHighPriorityTasks wNoAuth none).st.items = wNoAuth.st.items) ∧
    ((createItem wNoAuth none "t" "c" "p").2.isFailure = true ∧
      (createItem wNoAuth none "t" "c" "p").1.st.items = wNoAuth.st.items) ∧
    ((updateItem wNoAuth none "a1" "t" "c" "p").2.isFailure = true ∧
      (updateItem wNoAuth none "a1" "t" "c" "p").1.st.items = wNoAuth.st.items) ∧
    ((deleteItem wNoAuth none "a1").2.isFailure = true ∧
      (deleteItem wNoAuth none "a1").1.st.items = wNoAuth.st.items) :=
  ⟨⟨by decide, (c3_failure_leaves_list_unchanged wNoAuth none "a1" "t" "c" "p").1 (by decide)⟩,
   ⟨by decide, (c3_failure_leaves_list_unchanged wNoAuth none "a1" "t" "c" "p").2.1 (by decide)⟩,
   ⟨by decide, (c3_failure_leaves_list_unchanged wNoAuth none "a1" "t" "c" "p").2.2.1 (by decide)⟩,
   ⟨by decide, (c3_failure_leaves_list_unchanged wNoAuth none "a1" "t" "c" "p").2.2.2.1 (by decide)⟩,
   ⟨by decide, (c3_failure_leaves_list_unchanged wNoAuth none "a1" "t" "c" "p").2.2.2.2 (by decide)⟩⟩

/-- C4: every successful `createItem` call prepends the remote-assigned item
at index 0, so the list length grows by exactly one, and it issues exactly
one remote call (the insert; no re-fetch). Applied to each call of a
sequence of successful creates, this gives the claimed per-call growth. -/
theorem c4_create_prepends (w : World) (f : Option String) (t c p : String) (it : Item)
    (h : (createItem w f t c p).2 = CrudResult.success (some it)) :
    (createItem w f t c p).1.st.items = it :: w.st.items ∧
    (createItem w f t c p).1.st.items.length = w.st.items.length + 1 ∧
    (createItem w f t c p).1.calls = w.calls + 1 := by
  cases hs : activeUserId w.session with
  | none => simp [createItem, hs] at h
  | some uid =>
    cases f with
    | some m => simp [createItem, hs] at h
    | none =>
      have hit : (remoteInsert w.remote t c p uid).1 = it := by
        simpa [createItem, hs] using h
      subst hit
      simp [createItem, hs]

/-- C4 (witness): creating in `w0` prepends the freshly minted item. -/
theorem c4_witness :
    ((createItem w0 none "T" "C" "Medium").2 =
      CrudResult.success (some (remoteInsert w0.remote "T" "C" "Medium" "u1").1)) ∧
    (createItem w0 none "T" "C" "Medium").1.st.items =
      (remoteInsert w0.remote "T" "C" "Medium" "u1").1 :: w0.st.items :=
  ⟨by decide,
    (c4_create_prepends w0 none "T" "C" "Medium"
      (remoteInsert w0.remote "T" "C" "Medium" "u1").1 (by decide)).1⟩

/-- C5: an `updateItem` on an id whose rows all belong to a different user
(in particular, an item owned by another user) fails with the zero-row
`.single()` error — the `NotFound` of the spec's taxonomy — because the
remote update is restricted to rows matching both the id and the current
user's identity; the in-memory list and the remote table are unchanged. -/
theorem c5_update_foreign_item_notfound (w : World) (uid id t c p : String)
    (hs : activeUserId w.session = some uid)
    (hown : ∀ it ∈ w.remote.rows, it.id = id → it.user_id ≠ some uid) :
    (updateItem w none id t c p).2 = CrudResult.failure noRowsMsg ∧
    (updateItem w none id t c p).1.st.items = w.st.items ∧
    (updateItem w none id t c p).1.remote.rows = w.remote.rows := by
  have hm : w.remote.rows.filter (matchesIdUser id uid) = [] :=
    List.filter_eq_nil_iff.mpr (fun a ha => by
      simp only [matchesIdUser, Bool.and_eq_true, beq_iff_eq, not_and]
      exact hown a ha)
  have hup : remoteUpdate w.remote id t c p uid = none := by
    unfold remoteUpdate; rw [hm]
  have hne : noRowsMsg ≠ "" := by decide
  refine ⟨?_, ?_, ?_⟩ <;> simp [updateItem, hs, hup, strOr_of_ne _ _ hne]

/-- C5 (witness): in `w0` (user "u1"), updating item "b2" owned by "u2". -/
theorem c5_witness :
    (activeUserId w0.session = some "u1" ∧
      (∀ it ∈ w0.remote.rows, it.id = "b2" → it.user_id ≠ some "u1")) ∧
    (updateItem w0 none "b2" "T" "C" "High").2 = CrudResult.failure noRowsMsg ∧
    (updateItem w0 none "b2" "T" "C" "High").1.st.items = w0.st.items :=
  ⟨⟨by decide, by decide⟩,
    (c5_update_foreign_item_notfound w0 "u1" "b2" "T" "C" "High" (by decide) (by decide)).1,
    (c5_update_foreign_item_notfound w0 "u1" "b2" "T" "C" "High" (by decide) (by decide)).2.1⟩

/-- C6: whenever the trimmed email is empty, the trimmed password is empty,
or the (raw) password is shorter than 6 characters, `handleAuth` returns a
validation error — an early `return` before any call to the remote
authentication service (a `remoteAuth` step is never reached). -/
theorem c6_validation_before_remote (b : Bool) (email password : String)
    (h : jsTrim email = "" ∨ jsTrim password = "" ∨ password.length < 6) :
    ∃ m, handleAuth b email password = AuthStep.validationError m := by
  unfold handleAuth
  by_cases h1 : (jsTrim email == "" || jsTrim password == "") = true
  · rw [if_pos h1]; exact ⟨_, rfl⟩
  · rw [if_neg h1]
    have h2 : password.length < 6 := by
      simp only [Bool.or_eq_true, beq_iff_eq] at h1
      push_neg at h1
      rcases h with he | hp | hl
      · exact absurd he h1.1
      · exact absurd hp h1.2
      · exact hl
    rw [if_pos h2]
    exact ⟨_, rfl⟩

/-- C6 (witness): empty email with a short password. -/
theorem c6_witness :
    jsTrim "" = "" ∧
    ∃ m, handleAuth true "" "abc" = AuthStep.validationError m :=
  ⟨by decide, c6_validation_before_remote true "" "abc" (Or.inl (by decide))⟩

/-- C7: after `fetchHighPriorityTasks` (whatever its outcome `f1`), a
successful `fetchItems` replaces the list with exactly the current user's
rows ordered by identifier descending — the same list a direct `fetchItems`
yields, sorted under `idGe` and a permutation of the user's remote rows: the
destructive filter view loses no data. -/
theorem c7_fetchall_restores_after_filter (w : World) (uid : String) (f1 : Option String)
    (hs : activeUserId w.session = some uid) :
    (fetchItems (fetchHighPriorityTasks w f1) none).st.items = (fetchItems w none).st.items ∧
    (fetchItems (fetchHighPriorityTasks w f1) none).st.items = selectByUser w.remote uid ∧
    List.Sorted idGe (fetchItems (fetchHighPriorityTasks w f1) none).st.items ∧
    List.Perm (fetchItems (fetchHighPriorityTasks w f1) none).st.items
      (w.remote.rows.filter (fun it => it.user_id == some uid)) := by
  have hses : (fetchHighPriorityTasks w f1).session = w.session := by
    cases f1 <;> simp [fetchHighPriorityTasks, hs]
  have hrem : (fetchHighPriorityTasks w f1).remote = w.remote := by
    cases f1 <;> simp [fetchHighPriorityTasks, hs]
  have h2 : (fetchItems (fetchHighPriorityTasks w f1) none).st.items =
      selectByUser w.remote uid := by
    simp [fetchItems, hses, hrem, hs]
  have h3 : (fetchItems w none).st.items = selectByUser w.remote uid := by
    simp [fetchItems, hs]
  refine ⟨h2.trans h3.symm, h2, ?_, ?_⟩
  · rw [h2]; exact List.sorted_insertionSort idGe _
  · rw [h2]; exact List.perm_insertionSort idGe _

/-- C7 (witness): in `w0`, the filtered view then a full fetch yields the
same list as a direct full fetch. -/
theorem c7_witness :
    activeUserId w0.session = some "u1" ∧
    (fetchItems (fetchHighPriorityTasks w0 none) none).st.items = (fetchItems w0 none).st.items :=
  ⟨by decide, (c7_fetchall_restores_after_filter w0 "u1" none (by decide)).1⟩

/-- C8: both fetch operations set the loading flag true as their first step
(`fetchBegin`, the embedded `setLoading(true)`), and on every execution path
— success, remote failure, or missing session — the final loading flag is
false, the `finally` cleanup. -/
theorem c8_loading_reset_on_completion (st : ItemsState) (w : World) (f : Option String) :
    (fetchBegin st).loading = true ∧
    (fetchItems w f).st.loading = false ∧
    (fetchHighPriorityTasks w f).st.loading = false := by
  refine ⟨rfl, ?_, ?_⟩ <;>
    cases hs : activeUserId w.session <;> cases f <;>
      simp [fetchItems, fetchHighPriorityTasks, hs, fetchBegin, fetchFail]

/-- C9: every operation clears the recorded error at its start, so after the
call the recorded error is non-null exactly when that call failed: for the
fetches, exactly when the session guard or the remote call failed; for the
CRUD operations, exactly when the result is a failure; `clearItems` always
leaves it null. In particular every successful operation leaves `error = none`. -/
theorem c9_error_iff_last_op_failed (w : World) (f : Option String) (id t c p : String) :
    ((fetchItems w f).st.error.isSome = ((activeUserId w.session).isNone || f.isSome)) ∧
    ((fetchHighPriorityTasks w f).st.error.isSome =
      ((activeUserId w.session).isNone || f.isSome)) ∧
    ((createItem w f t c p).1.st.error.isSome = (createItem w f t c p).2.isFailure) ∧
    ((updateItem w f id t c p).1.st.error.isSome = (updateItem w f id t c p).2.isFailure) ∧
    ((deleteItem w f id).1.st.error.isSome = (deleteItem w f id).2.isFailure) ∧
    ((clearItems w).st.error = none) := by
  refine ⟨?_, ?_, ?_, ?_, ?_, rfl⟩
  · cases hs : activeUserId w.session <;> cases f <;>
      simp [fetchItems, hs, fetchBegin, fetchFail]
  · cases hs : activeUserId w.session <;> cases f <;>
      simp [fetchHighPriorityTasks, hs, fetchBegin, fetchFail]
  · cases hs : activeUserId w.session <;> cases f <;>
      simp [createItem, hs, CrudResult.isFailure]
  · cases hs : activeUserId w.session with
    | none => cases f <;> simp [updateItem, hs, CrudResult.isFailure]
    | some uid =>
      cases f with
      | some m => simp [updateItem, hs, CrudResult.isFailure]
      | none =>
        cases hu : remoteUpdate w.remote id t c p uid <;>
          simp [updateItem, hs, hu, CrudResult.isFailure]
  · cases hs : activeUserId w.session <;> cases f <;>
      simp [deleteItem, hs, CrudResult.isFailure]

/-- C10: the pre-validation of `handleAuth` measures the raw password, but
the password submitted to the remote service is the trimmed one: for the
password "12345 " (length 6, so validation passes) both the sign-up and the
sign-in path submit "12345", which has fewer than 6 characters. -/
theorem c10_raw_length_checked_trimmed_submitted :
    6 ≤ ("12345 " : String).length ∧
    jsTrim "12345 " = "12345" ∧
    handleAuth true "a@b.com" "12345 " = AuthStep.remoteAuth true "a@b.com" "12345" ∧
    handleAuth false "a@b.com" "12345 " = AuthStep.remoteAuth false "a@b.com" "12345" ∧
    ("12345" : String).length < 6 := by
  decide
